import Mathlib

/-!
Verification development for the Unified Backend Connection Manager of the
NexVed backend framework. The definitions below are shallow embeddings of:

- `src/templates/express/javascript/database/index.js` (DatabaseManager),
- `src/templates/express/javascript/database/adapters/postgresql.js`,
- `src/templates/express/javascript/database/adapters/mysql.js`,
- `src/templates/express/javascript/database/adapters/mongodb.js`,
- `src/unnamed/part_009` / `src/templates/express/typescript/database/adapters/firebase.ts`
  (FirebaseAdapter and FirestoreCollection).

Asynchronous driver calls (pool connect, ping, rollback, ...) are modelled by
explicit outcome parameters (`Bool` oracles or `Except` values): the manager
and adapters treat every driver as an opaque dependency, so their control flow
is a pure function of those outcomes.
-/

namespace BackendDB

/-- Error taxonomy of the database subsystem.  JavaScript `Error` values are
modelled structurally; `unknownAdapter` carries the list of currently
registered provider ids, mirroring the message built in
`DatabaseManager.get` (index.js line 69). -/
inductive DbError where
  | configuration (msg : String)
  | connection (msg : String)
  | notConnected (msg : String)
  | unknownAdapter (requested : String) (available : List String)
  | noAdapters
  | operation (msg : String)
deriving DecidableEq, Repr

/-! ### PostgreSQL adapter lifecycle (postgresql.js) -/

/-- State of a `PostgreSQLAdapter` instance after construction:
`pool` models `this.pool` (`none` = JavaScript `null`, `some h` = a pool
object identified by handle `h`) and `connected` models `this.connected`. -/
structure PGState where
  connected : Bool
  pool : Option Nat
deriving DecidableEq, Repr

/-- The field initializers of `PostgreSQLAdapter`: `pool = null`,
`connected = false` (postgresql.js lines 12-14). -/
def PGState.init : PGState := { connected := false, pool := none }

/-- Configuration fields inspected by the `PostgreSQLAdapter` constructor;
all other settings are opaque to the guard (postgresql.js lines 16-21). -/
structure PGConfig where
  connectionString : Option String
  host : Option String
deriving DecidableEq, Repr

/-- `createPostgreSQLAdapter` / the `PostgreSQLAdapter` constructor:
throws a configuration error when neither `connectionString` nor `host`
is present, otherwise yields an unconnected instance
(postgresql.js lines 16-21, 196-198). -/
def mkPostgreSQLAdapter (c : PGConfig) : Except DbError PGState :=
  if c.connectionString.isNone && c.host.isNone then
    .error (DbError.configuration "PostgreSQL requires connectionString or host in configuration")
  else
    .ok PGState.init

/-- `PostgreSQLAdapter.connect` (postgresql.js lines 23-50).
`driverOk` is the outcome of `pool.connect()`; `h` is the fresh pool object
created by `new Pool(poolConfig)`.  When already connected the method
returns at once (line 24).  Note that `this.pool` is assigned before the
driver round-trip, so a failed connect leaves the pool object in place. -/
def pgConnect (driverOk : Bool) (h : Nat) (s : PGState) : PGState × Except DbError Unit :=
  if s.connected then (s, .ok ())
  else
    let s1 : PGState := { s with pool := some h }
    if driverOk then ({ s1 with connected := true }, .ok ())
    else (s1, .error (DbError.connection "PostgreSQL connection failed"))

/-- `PostgreSQLAdapter.disconnect` (postgresql.js lines 52-59): only acts
when a pool exists.  `endOk` is the outcome of `await this.pool.end()`:
on success the pool is cleared and `connected` reset, but a rejected
`end()` throws out of the method before either assignment runs, leaving
`pool` and `connected` as they were. -/
def pgDisconnect (endOk : Bool) (s : PGState) : PGState × Except DbError Unit :=
  if s.pool.isSome then
    if endOk then ({ connected := false, pool := none }, .ok ())
    else (s, .error (DbError.connection "PostgreSQL disconnect failed"))
  else (s, .ok ())

/-- `PostgreSQLAdapter.isConnected` (postgresql.js lines 61-63). -/
def pgIsConnected (s : PGState) : Bool :=
  s.connected && s.pool.isSome

/-- The operations that mutate a `PostgreSQLAdapter` lifecycle state:
`connect` carries the driver outcome and the fresh pool handle. -/
inductive PGOp where
  | connect (driverOk : Bool) (h : Nat)
  | disconnect (endOk : Bool)
deriving DecidableEq, Repr

/-- State transition of one lifecycle operation on a PostgreSQL adapter. -/
def pgStep (op : PGOp) (s : PGState) : PGState :=
  match op with
  | .connect ok h => (pgConnect ok h s).1
  | .disconnect endOk => (pgDisconnect endOk s).1

/-- Run a sequence of lifecycle operations from a freshly constructed
`PostgreSQLAdapter` instance. -/
def pgRun (ops : List PGOp) : PGState :=
  ops.foldl (fun s op => pgStep op s) PGState.init

/-! ### MongoDB adapter lifecycle (mongodb.js) -/

/-- State of a `MongoDBAdapter` instance: `client` models `this.client`,
`db` models `this.db`, `connected` models `this.connected`
(mongodb.js lines 12-15). -/
structure MongoState where
  connected : Bool
  client : Option Nat
  db : Option Nat
deriving DecidableEq, Repr

/-- Field initializers of `MongoDBAdapter`. -/
def MongoState.init : MongoState := { connected := false, client := none, db := none }

/-- `MongoDBAdapter.connect` (mongodb.js lines 24-40).  `clientOk` is the
outcome of `client.connect()`, `pingOk` the outcome of the subsequent
`db.command(ping)`; `hc` and `hd` are the fresh client and db objects.
Returns at once when already connected (line 25).  A failure after the
assignments leaves the partially assigned fields in place. -/
def mongoConnect (clientOk pingOk : Bool) (hc hd : Nat) (s : MongoState) :
    MongoState × Except DbError Unit :=
  if s.connected then (s, .ok ())
  else
    let s1 : MongoState := { s with client := some hc }
    if clientOk then
      let s2 : MongoState := { s1 with db := some hd }
      if pingOk then ({ s2 with connected := true }, .ok ())
      else (s2, .error (DbError.connection "MongoDB connection failed"))
    else (s1, .error (DbError.connection "MongoDB connection failed"))

/-- `MongoDBAdapter.disconnect` (mongodb.js lines 42-50): only acts when a
client exists.  `closeOk` is the outcome of `await this.client.close()`:
on success `client`, `db` and `connected` are cleared, but a rejected
`close()` throws out of the method before the assignments run, leaving
every field as it was. -/
def mongoDisconnect (closeOk : Bool) (s : MongoState) : MongoState × Except DbError Unit :=
  if s.client.isSome then
    if closeOk then ({ connected := false, client := none, db := none }, .ok ())
    else (s, .error (DbError.connection "MongoDB disconnect failed"))
  else (s, .ok ())

/-- `MongoDBAdapter.isConnected` (mongodb.js lines 52-54). -/
def mongoIsConnected (s : MongoState) : Bool :=
  s.connected && s.client.isSome

/-- The operations that mutate a `MongoDBAdapter` lifecycle state. -/
inductive MongoOp where
  | connect (clientOk pingOk : Bool) (hc hd : Nat)
  | disconnect (closeOk : Bool)
deriving DecidableEq, Repr

/-- State transition of one lifecycle operation on a MongoDB adapter. -/
def mongoStep (op : MongoOp) (s : MongoState) : MongoState :=
  match op with
  | .connect cOk pOk hc hd => (mongoConnect cOk pOk hc hd s).1
  | .disconnect closeOk => (mongoDisconnect closeOk s).1

/-! ### Firebase adapter lifecycle (part_009 / firebase.ts) -/

/-- State of a `FirebaseAdapter` instance: `app`, `firestore`, `realtimeDb`
and `connected` model the homonymous fields (part_009 lines 14-18). -/
structure FBState where
  connected : Bool
  app : Option Nat
  firestore : Option Nat
  realtimeDb : Option Nat
deriving DecidableEq, Repr

/-- Field initializers of `FirebaseAdapter`. -/
def FBState.init : FBState :=
  { connected := false, app := none, firestore := none, realtimeDb := none }

/-- `FirebaseAdapter.connect` (part_009 lines 27-63).  `existingApp` models
`getApps().length > 0`; `initOk` is the outcome of `initializeApp` when a
new app must be created (a failure there rethrows before any field is
assigned); `hApp`, `hFs`, `hRt` are the obtained app, Firestore and
realtime-database objects and `hasDbUrl` models `config.databaseURL` being
set.  Returns at once when already connected (line 28). -/
def fbConnect (existingApp initOk : Bool) (hApp hFs hRt : Nat) (hasDbUrl : Bool)
    (s : FBState) : FBState × Except DbError Unit :=
  if s.connected then (s, .ok ())
  else if existingApp || initOk then
    let s1 : FBState := { s with app := some hApp, firestore := some hFs }
    let s2 : FBState := if hasDbUrl then { s1 with realtimeDb := some hRt } else s1
    ({ s2 with connected := true }, .ok ())
  else (s, .error (DbError.connection "Firebase connection failed"))

/-- `FirebaseAdapter.disconnect` (part_009 lines 65-70): unconditionally
clears `firestore` and `realtimeDb` and resets `connected`; `this.app`
is left untouched. -/
def fbDisconnect (s : FBState) : FBState × Except DbError Unit :=
  ({ s with firestore := none, realtimeDb := none, connected := false }, .ok ())

/-! ### SQL transaction (postgresql.js lines 100-117, mysql.js lines 97-114) -/

/-- Observable outcome of one `transaction(callback)` call: the value or
error delivered to the caller, which of BEGIN / COMMIT / ROLLBACK were
issued on the dedicated connection, and every console message emitted
between acquiring and releasing that connection. -/
structure TxOutcome (α : Type) where
  result : Except String α
  beginIssued : Bool
  commitIssued : Bool
  rollbackIssued : Bool
  logs : List String
deriving Repr

/-- `PostgreSQLAdapter.transaction` and `MySQLAdapter.transaction`, which
share their control flow exactly.  `hasPool` models `this.pool !== null`;
`beginR`, `commitR`, `rollbackR` are the outcomes of the driver calls
issuing BEGIN, COMMIT and ROLLBACK; `body` is the outcome of
`callback(client)`.  The source wraps BEGIN, the body and COMMIT in one
`try`; the `catch` runs `await client.query(ROLLBACK)` and only afterwards
`throw error`, so a rejected rollback replaces the original error; no
console call occurs anywhere in the method. -/
def sqlTransaction {α : Type} (hasPool : Bool) (beginR : Except String Unit)
    (body : Except String α) (commitR : Except String Unit)
    (rollbackR : Except String Unit) : TxOutcome α :=
  if hasPool then
    match beginR with
    | .error e =>
      { result := match rollbackR with
          | .ok _ => .error e
          | .error re => .error re
        beginIssued := true, commitIssued := false, rollbackIssued := true, logs := [] }
    | .ok _ =>
      match body with
      | .error e =>
        { result := match rollbackR with
            | .ok _ => .error e
            | .error re => .error re
          beginIssued := true, commitIssued := false, rollbackIssued := true, logs := [] }
      | .ok a =>
        match commitR with
        | .error e =>
          { result := match rollbackR with
              | .ok _ => .error e
              | .error re => .error re
            beginIssued := true, commitIssued := true, rollbackIssued := true, logs := [] }
        | .ok _ =>
          { result := .ok a, beginIssued := true, commitIssued := true,
            rollbackIssued := false, logs := [] }
  else
    { result := .error "PostgreSQL not connected", beginIssued := false,
      commitIssued := false, rollbackIssued := false, logs := [] }

/-! ### Firestore collection (part_009 lines 109-197, firebase.ts) -/

/-- A Firestore document: its id together with its fields (string-valued,
which suffices for the equality-only filter semantics). -/
abbrev FsDoc := Nat × List (String × String)

/-- An equality filter: `Object.entries(filter)` as a list of
field-name / value pairs. -/
abbrev FsFilter := List (String × String)

/-- Whether a document satisfies every `where(key, eq, value)` clause of a
filter (part_009 lines 114-125): each filter field must be present on the
document with exactly the filtered value. -/
def fsMatches (filter : FsFilter) (d : FsDoc) : Bool :=
  filter.all fun kv => d.2.lookup kv.1 == some kv.2

/-- `FirestoreCollection.find` over a collection state: the documents
matching the filter, in collection order. -/
def fsFind (store : List FsDoc) (filter : FsFilter) : List FsDoc :=
  store.filter (fsMatches filter)

/-- Insert-or-replace on an association list; the replaced key keeps its
position, a new key is appended.  Models both JavaScript `Map.set` and a
Firestore field merge for one field. -/
def mapSet {α : Type} (m : List (String × α)) (k : String) (v : α) :
    List (String × α) :=
  match m with
  | [] => [(k, v)]
  | (k0, v0) :: rest => if k0 = k then (k, v) :: rest else (k0, v0) :: mapSet rest k v

/-- Apply a partial-document update to a document's fields: every updated
field is set, other fields are kept (Firestore `DocumentReference.update`
merge semantics relied on by part_009 lines 151-170). -/
def fsSetFields (fields upd : List (String × String)) : List (String × String) :=
  upd.foldl (fun fs kv => mapSet fs kv.1 kv.2) fields

/-- `FirestoreCollection.updateOne` (part_009 lines 151-157): finds the
matching documents, returns `modifiedCount = 0` before any write when none
match, otherwise updates the first match.  `ioFail` is the outcome of the
single `update` driver call (only reached when a match exists). -/
def fsUpdateOne (ioFail : Bool) (store : List FsDoc) (filter : FsFilter)
    (upd : List (String × String)) : Except DbError (Nat × List FsDoc) :=
  match fsFind store filter with
  | [] => .ok (0, store)
  | d :: _ =>
    if ioFail then .error (DbError.operation "update failed")
    else .ok (1, store.map fun x => if x.1 = d.1 then (x.1, fsSetFields x.2 upd) else x)

/-- `FirestoreCollection.updateMany` (part_009 lines 159-170): returns
`modifiedCount = 0` before creating a batch when nothing matches, otherwise
batch-updates every match and reports their number.  `ioFail` is the
outcome of `batch.commit()`. -/
def fsUpdateMany (ioFail : Bool) (store : List FsDoc) (filter : FsFilter)
    (upd : List (String × String)) : Except DbError (Nat × List FsDoc) :=
  match fsFind store filter with
  | [] => .ok (0, store)
  | docs =>
    if ioFail then .error (DbError.operation "batch update failed")
    else
      .ok (docs.length, store.map fun x =>
        if (docs.map Prod.fst).contains x.1 then (x.1, fsSetFields x.2 upd) else x)

/-- `FirestoreCollection.deleteOne` (part_009 lines 172-178): returns
`deletedCount = 0` before any write when nothing matches, otherwise deletes
the first match. -/
def fsDeleteOne (ioFail : Bool) (store : List FsDoc) (filter : FsFilter) :
    Except DbError (Nat × List FsDoc) :=
  match fsFind store filter with
  | [] => .ok (0, store)
  | d :: _ =>
    if ioFail then .error (DbError.operation "delete failed")
    else .ok (1, store.filter fun x => x.1 != d.1)

/-- `FirestoreCollection.deleteMany` (part_009 lines 180-191): returns
`deletedCount = 0` before creating a batch when nothing matches, otherwise
batch-deletes every match and reports their number. -/
def fsDeleteMany (ioFail : Bool) (store : List FsDoc) (filter : FsFilter) :
    Except DbError (Nat × List FsDoc) :=
  match fsFind store filter with
  | [] => .ok (0, store)
  | docs =>
    if ioFail then .error (DbError.operation "batch delete failed")
    else .ok (docs.length, store.filter fun x => !(docs.map Prod.fst).contains x.1)

/-! ### DatabaseManager (index.js) -/

/-- What the manager observes of one configured provider during
`DatabaseManager` startup.  Each field is the outcome of a step whose
implementation is provider-specific and opaque to the manager:
`cfgPresent` models `providerConfig` being truthy (index.js line 43),
`known` models the factory lookup succeeding (lines 45-49), `ctorOk`
models `factory(providerConfig)` not throwing (lines 51-57), and
`connectOk` the later settlement of `adapter.connect()` (lines 54, 60). -/
structure ProviderEntry where
  cfgPresent : Bool
  known : Bool
  ctorOk : Bool
  connectOk : Bool
deriving DecidableEq, Repr

/-- The configuration object accepted by the manager:
`dflt` models `config.default || null` and `providers` models
`config.providers`, `none` standing for a falsy value. -/
structure DbConfig where
  dflt : Option String
  providers : Option (List (String × ProviderEntry))
deriving DecidableEq, Repr

/-- An adapter instance held in the manager map; `connected` is the
adapter's own connection flag after its `connect()` attempt settled. -/
structure ManagedAdapter where
  connected : Bool
deriving DecidableEq, Repr

/-- The mutable state of a `DatabaseManager` (index.js lines 22-25):
`adapters` is the insertion-ordered `Map`, `defaultProvider` models
`this.defaultProvider` and `initialized` models `this.initialized`. -/
structure ManagerState where
  adapters : List (String × ManagedAdapter)
  defaultProvider : Option String
  initialized : Bool
deriving DecidableEq, Repr

/-- A freshly constructed `DatabaseManager` (index.js lines 22-25). -/
def ManagerState.fresh : ManagerState :=
  { adapters := [], defaultProvider := none, initialized := false }

/-- Lookup in an insertion-ordered association list, i.e. `Map.get`. -/
def mapLookup {α : Type} (m : List (String × α)) (k : String) : Option α :=
  match m with
  | [] => none
  | (k0, v0) :: rest => if k0 = k then some v0 else mapLookup rest k

/-- One iteration of the provider loop of `DatabaseManager.initialize`
(index.js lines 42-58), threading the adapter map and the console
messages: a falsy config is skipped silently, an unknown provider or a
throwing factory is skipped with a message, and otherwise the adapter is
stored with `Map.set` before its `connect()` is pushed. -/
def initStep (acc : List (String × ManagedAdapter) × List String)
    (e : String × ProviderEntry) : List (String × ManagedAdapter) × List String :=
  if e.2.cfgPresent then
    if e.2.known then
      if e.2.ctorOk then
        (mapSet acc.1 e.1 { connected := e.2.connectOk }, acc.2)
      else
        (acc.1, acc.2 ++ ["Failed to create " ++ e.1 ++ " adapter"])
    else
      (acc.1, acc.2 ++ ["Unknown database provider: " ++ e.1])
  else acc

/-- `DatabaseManager.initialize(config)` (index.js lines 27-64).  Returns
the new manager state together with the warnings and errors printed to the
console.  When already initialized, or when `config.providers` is falsy,
it returns before touching any field; otherwise it records the default
provider, runs the provider loop, awaits every `connect()` settlement
(`Promise.allSettled`, which never rejects and removes nothing from the
map) and sets `initialized` unconditionally.  Every factory exception is
caught inside the loop, so the method itself never throws. -/
def initializeDb (cfg : DbConfig) (s : ManagerState) : ManagerState × List String :=
  if s.initialized then (s, ["DatabaseManager already initialized"])
  else
    match cfg.providers with
    | none => (s, ["No database providers configured"])
    | some ps =>
      let r := ps.foldl initStep (s.adapters, [])
      ({ adapters := r.1, defaultProvider := cfg.dflt, initialized := true }, r.2)

/-- `DatabaseManager.get(name)` (index.js lines 66-72): the stored adapter,
or an error listing the currently registered provider ids. -/
def ManagerState.get (s : ManagerState) (name : String) : Except DbError ManagedAdapter :=
  match mapLookup s.adapters name with
  | none => .error (DbError.unknownAdapter name (s.adapters.map Prod.fst))
  | some a => .ok a

/-- `DatabaseManager.providers()` (index.js lines 96-98): the keys of the
adapter map, in insertion order. -/
def ManagerState.providersList (s : ManagerState) : List String :=
  s.adapters.map Prod.fst

/-- `DatabaseManager.has(name)` (index.js lines 92-94). -/
def ManagerState.hasAdapter (s : ManagerState) (name : String) : Bool :=
  (mapLookup s.adapters name).isSome

/-- `DatabaseManager.default()` (index.js lines 74-83): with no default
provider set, the first value of the adapter map or an error when the map
is empty; otherwise a plain `get` of the default provider. -/
def ManagerState.defaultAdapter (s : ManagerState) : Except DbError ManagedAdapter :=
  match s.defaultProvider with
  | none =>
    match s.adapters with
    | [] => .error DbError.noAdapters
    | kv :: _ => .ok kv.2
  | some d => s.get d

/-- The adapters of the map that are live in the sense of the design
glossary: those whose `connect()` completed successfully. -/
def ManagerState.liveAdapters (s : ManagerState) : List (String × ManagedAdapter) :=
  s.adapters.filter fun kv => kv.2.connected

/-- `DatabaseManager.disconnect()` (index.js lines 110-120).  `dfail`
gives, per provider id, whether that adapter's `disconnect()` rejects;
every rejection is caught on its own promise and only logged, so the
joined `Promise.all` never rejects and the method always completes,
clearing the map and resetting `initialized`.  Returns the new state and
the logged disconnect errors. -/
def ManagerState.disconnectAll (s : ManagerState) (dfail : String → Bool) :
    ManagerState × List String :=
  let logs := s.adapters.foldl
    (fun acc kv => if dfail kv.1 then acc ++ ["Disconnect error: " ++ kv.1] else acc) []
  ({ adapters := [], defaultProvider := s.defaultProvider, initialized := false }, logs)

/-! ### Helper lemmas -/

/-- The registration decision taken by one iteration of the provider loop:
a provider is stored in the adapter map exactly when its config is truthy,
its factory is known, and its constructor does not throw. -/
def registrable (e : ProviderEntry) : Bool :=
  e.cfgPresent && e.known && e.ctorOk

/-- The adapter-map component of one provider-loop iteration. -/
def regStep (m : List (String × ManagedAdapter)) (e : String × ProviderEntry) :
    List (String × ManagedAdapter) :=
  if registrable e.2 then mapSet m e.1 { connected := e.2.connectOk } else m

theorem initStep_fst (acc : List (String × ManagedAdapter) × List String)
    (e : String × ProviderEntry) : (initStep acc e).1 = regStep acc.1 e := by
  rcases e with ⟨id, pe⟩
  rcases pe with ⟨c, k, t, o⟩
  cases c <;> cases k <;> cases t <;> simp [initStep, regStep, registrable]

theorem foldl_initStep_fst (ps : List (String × ProviderEntry))
    (m : List (String × ManagedAdapter)) (logs : List String) :
    (ps.foldl initStep (m, logs)).1 = ps.foldl regStep m := by
  induction ps generalizing m logs with
  | nil => rfl
  | cons e rest ih =>
    rw [List.foldl_cons, List.foldl_cons]
    have h1 : (rest.foldl initStep (initStep (m, logs) e)).1
        = rest.foldl regStep (initStep (m, logs) e).1 := ih _ _
    rw [h1, initStep_fst]

theorem mapLookup_mapSet_self {α : Type} (m : List (String × α)) (k : String) (v : α) :
    mapLookup (mapSet m k v) k = some v := by
  induction m with
  | nil => simp [mapSet, mapLookup]
  | cons kv rest ih =>
    rcases kv with ⟨k0, v0⟩
    by_cases h : k0 = k
    · simp [mapSet, h, mapLookup]
    · simp [mapSet, h, mapLookup, ih]

theorem mapLookup_mapSet_ne {α : Type} (m : List (String × α)) (k k' : String) (v : α)
    (h : k ≠ k') : mapLookup (mapSet m k v) k' = mapLookup m k' := by
  induction m with
  | nil => simp [mapSet, mapLookup, h]
  | cons kv rest ih =>
    rcases kv with ⟨k0, v0⟩
    by_cases h0 : k0 = k
    · subst h0
      simp [mapSet, mapLookup, h]
    · simp [mapSet, h0, mapLookup, ih]

theorem mapLookup_foldl_regStep_of_not_mem (ps : List (String × ProviderEntry))
    (m : List (String × ManagedAdapter)) (id : String)
    (h : id ∉ ps.map Prod.fst) :
    mapLookup (ps.foldl regStep m) id = mapLookup m id := by
  induction ps generalizing m with
  | nil => rfl
  | cons e rest ih =>
    simp only [List.map_cons, List.mem_cons, not_or] at h
    rw [List.foldl_cons, ih _ h.2]
    unfold regStep
    by_cases hr : registrable e.2
    · simp only [hr, if_true]
      exact mapLookup_mapSet_ne _ _ _ _ fun heq => h.1 heq.symm
    · simp [hr]

theorem mapLookup_foldl_regStep_of_mem (ps : List (String × ProviderEntry))
    (id : String) (e : ProviderEntry) (m : List (String × ManagedAdapter))
    (hnd : (ps.map Prod.fst).Nodup) (hmem : (id, e) ∈ ps)
    (hr : registrable e = true) :
    mapLookup (ps.foldl regStep m) id = some { connected := e.connectOk } := by
  induction ps generalizing m with
  | nil => cases hmem
  | cons p rest ih =>
    rw [List.foldl_cons]
    rw [List.map_cons, List.nodup_cons] at hnd
    rcases List.mem_cons.mp hmem with heq | hmem2
    · subst heq
      rw [mapLookup_foldl_regStep_of_not_mem _ _ _ hnd.1]
      simp [regStep, hr, mapLookup_mapSet_self]
    · exact ih _ hnd.2 hmem2

theorem mem_keys_of_mapLookup {α : Type} (m : List (String × α)) (id : String) (a : α)
    (h : mapLookup m id = some a) : id ∈ m.map Prod.fst := by
  induction m with
  | nil => cases h
  | cons kv rest ih =>
    rcases kv with ⟨k0, v0⟩
    by_cases hk : k0 = id
    · simp [hk]
    · rw [mapLookup, if_neg hk] at h
      simp [ih h]

/-! ### Claim C1 -/

/-- Claim C1 as stated is false on the code: `DatabaseManager.initialize`
stores each adapter with `Map.set` before pushing its `connect()` promise
and never removes it when that promise rejects, so with one configured
provider whose constructor succeeds but whose connect fails, `providers()`
still lists it and `get` still returns it. -/
theorem claim1_counterexample :
    (initializeDb
      { dflt := none,
        providers := some [("postgresql",
          { cfgPresent := true, known := true, ctorOk := true, connectOk := false })] }
      ManagerState.fresh).1.providersList = ["postgresql"] ∧
    (initializeDb
      { dflt := none,
        providers := some [("postgresql",
          { cfgPresent := true, known := true, ctorOk := true, connectOk := false })] }
      ManagerState.fresh).1.get "postgresql" = .ok { connected := false } :=
  ⟨rfl, rfl⟩

/-- Claim C1 amended: for every configuration, after `initialize` every
provider whose adapter was constructed (truthy config, known factory,
non-throwing constructor) remains registered regardless of its `connect`
outcome: `get` returns it (with its own connected flag recording the
outcome) and `providers()` lists it. -/
theorem claim1_constructed_adapters_stay_registered
    (ps : List (String × ProviderEntry)) (d : Option String)
    (id : String) (e : ProviderEntry)
    (hnd : (ps.map Prod.fst).Nodup) (hmem : (id, e) ∈ ps)
    (hc : e.cfgPresent = true) (hk : e.known = true) (ht : e.ctorOk = true) :
    (initializeDb { dflt := d, providers := some ps } ManagerState.fresh).1.get id
        = .ok { connected := e.connectOk } ∧
    id ∈ (initializeDb { dflt := d, providers := some ps } ManagerState.fresh).1.providersList := by
  have hr : registrable e = true := by simp [registrable, hc, hk, ht]
  have hmap : (initializeDb { dflt := d, providers := some ps } ManagerState.fresh).1.adapters
      = ps.foldl regStep [] := by
    simp [initializeDb, ManagerState.fresh, foldl_initStep_fst]
  have hlook : mapLookup
      ((initializeDb { dflt := d, providers := some ps } ManagerState.fresh).1.adapters) id
      = some { connected := e.connectOk } := by
    rw [hmap]
    exact mapLookup_foldl_regStep_of_mem ps id e [] hnd hmem hr
  constructor
  · simp [ManagerState.get, hlook]
  · exact mem_keys_of_mapLookup _ _ _ hlook

/-- Witness for the amended claim C1 at a concrete one-provider
configuration whose connect attempt fails. -/
theorem claim1_witness :
    (initializeDb
      { dflt := none,
        providers := some [("postgresql",
          { cfgPresent := true, known := true, ctorOk := true, connectOk := false })] }
      ManagerState.fresh).1.get "postgresql" = .ok { connected := false } ∧
    "postgresql" ∈ (initializeDb
      { dflt := none,
        providers := some [("postgresql",
          { cfgPresent := true, known := true, ctorOk := true, connectOk := false })] }
      ManagerState.fresh).1.providersList :=
  claim1_constructed_adapters_stay_registered
    [("postgresql", { cfgPresent := true, known := true, ctorOk := true, connectOk := false })]
    none "postgresql"
    { cfgPresent := true, known := true, ctorOk := true, connectOk := false }
    (by decide) (by decide) rfl rfl rfl

/-! ### Claim C2 -/

/-- Claim C2 as stated is false on the code: in
`PostgreSQLAdapter.transaction` (and identically `MySQLAdapter`), the
catch block awaits ROLLBACK before rethrowing, so when the body throws
boom and the rollback itself fails, the rollback error is what the caller
receives, the original boom is lost, and nothing is logged. -/
theorem claim2_counterexample :
    (sqlTransaction true (.ok ()) (.error "boom" : Except String Nat) (.ok ())
      (.error "rollback failed")).rollbackIssued = true ∧
    (sqlTransaction true (.ok ()) (.error "boom" : Except String Nat) (.ok ())
      (.error "rollback failed")).result = .error "rollback failed" ∧
    (sqlTransaction true (.ok ()) (.error "boom" : Except String Nat) (.ok ())
      (.error "rollback failed")).result ≠ .error "boom" ∧
    (sqlTransaction true (.ok ()) (.error "boom" : Except String Nat) (.ok ())
      (.error "rollback failed")).logs = [] :=
  ⟨rfl, rfl, by simp [sqlTransaction], rfl⟩

/-- Claim C2 amended: when the body throws E after begin, a rollback is
issued and no commit; if the rollback succeeds, exactly E is rethrown, but
if the rollback itself fails its error replaces E as what propagates, and
no log entry is produced in either case. -/
theorem claim2_rollback_error_propagates (e : String) (rollbackR : Except String Unit) :
    (sqlTransaction true (.ok ()) (.error e : Except String Nat) (.ok ())
      rollbackR).rollbackIssued = true ∧
    (sqlTransaction true (.ok ()) (.error e : Except String Nat) (.ok ())
      rollbackR).commitIssued = false ∧
    (sqlTransaction true (.ok ()) (.error e : Except String Nat) (.ok ())
      rollbackR).logs = [] ∧
    (sqlTransaction true (.ok ()) (.error e : Except String Nat) (.ok ())
      rollbackR).result
      = (match rollbackR with | .ok _ => .error e | .error re => .error re) := by
  cases rollbackR <;> simp [sqlTransaction]

/-! ### Claim C3 -/

/-- Claim C3 as stated is false on the code: a configuration whose
`providers` field is falsy makes `initialize` return at the early guard
(index.js lines 33-36), before `this.initialized = true` is reached, so
the flag stays false after the first call. -/
theorem claim3_counterexample :
    ManagerState.fresh.initialized = false ∧
    (initializeDb { dflt := none, providers := none } ManagerState.fresh).1.initialized
      = false :=
  ⟨rfl, rfl⟩

/-- Claim C3 amended: for every configuration that supplies a providers
object, the first `initialize` call leaves the initialized flag true, even
when the object is empty or no adapter connected. -/
theorem claim3_initialized_set_when_providers_present
    (s : ManagerState) (d : Option String) (ps : List (String × ProviderEntry))
    (h : s.initialized = false) :
    (initializeDb { dflt := d, providers := some ps } s).1.initialized = true := by
  simp [initializeDb, h]

/-- Witness for the amended claim C3 on a fresh manager and an empty
providers object: zero adapters connect, yet the flag becomes true. -/
theorem claim3_witness :
    (initializeDb { dflt := none, providers := some [] } ManagerState.fresh).1.initialized
      = true :=
  claim3_initialized_set_when_providers_present ManagerState.fresh none [] rfl

/-! ### Claim C4 -/

/-- Claim C4 as stated is false on the code: `connect()` only short-circuits
on a currently connected instance, so after a disconnect (which resets
`this.connected`) a further explicit `connect()` succeeds and the instance
is Connected again — Connected to Disconnected is not terminal. -/
theorem claim4_counterexample :
    (pgRun [PGOp.connect true 1]).connected = true ∧
    (pgRun [PGOp.connect true 1, PGOp.disconnect true]).connected = false ∧
    (pgRun [PGOp.connect true 1, PGOp.disconnect true, PGOp.connect true 2]).connected
      = true :=
  ⟨rfl, rfl, rfl⟩

/-- Claim C4 amended: for PostgreSQL and MongoDB adapter instances, the
only transition into Connected is an explicit connect call whose driver
round-trips succeed (no silent auto-reconnect); a disconnect call whose
underlying close succeeds leaves the instance not connected, while a
disconnect whose close rejects throws before any field assignment and
changes nothing, leaving a connected instance still connected; and
Disconnected is not terminal, since a later explicit connect may
re-establish the connection. -/
theorem claim4_no_silent_reconnect (s : PGState) (op : PGOp)
    (t : MongoState) (mop : MongoOp) :
    (s.connected = false → (pgStep op s).connected = true →
      ∃ h, op = PGOp.connect true h) ∧
    pgIsConnected (pgStep (PGOp.disconnect true) s) = false ∧
    pgStep (PGOp.disconnect false) s = s ∧
    (t.connected = false → (mongoStep mop t).connected = true →
      ∃ hc hd, mop = MongoOp.connect true true hc hd) ∧
    mongoIsConnected (mongoStep (MongoOp.disconnect true) t) = false ∧
    mongoStep (MongoOp.disconnect false) t = t := by
  refine ⟨?_, ?_, ?_, ?_, ?_, ?_⟩
  · intro hs hstep
    cases op with
    | connect ok h =>
      cases ok with
      | false => simp [pgStep, pgConnect, hs] at hstep
      | true => exact ⟨h, rfl⟩
    | disconnect endOk =>
      rw [pgStep, pgDisconnect] at hstep
      by_cases hp : s.pool.isSome <;> cases endOk <;> simp [hp, hs] at hstep
  · rw [pgStep, pgDisconnect]
    by_cases hp : s.pool.isSome <;> simp [hp, pgIsConnected]
  · rw [pgStep, pgDisconnect]
    by_cases hp : s.pool.isSome <;> simp [hp]
  · intro ht hstep
    cases mop with
    | connect cOk pOk hc hd =>
      cases cOk with
      | false => simp [mongoStep, mongoConnect, ht] at hstep
      | true =>
        cases pOk with
        | false => simp [mongoStep, mongoConnect, ht] at hstep
        | true => exact ⟨hc, hd, rfl⟩
    | disconnect closeOk =>
      rw [mongoStep, mongoDisconnect] at hstep
      by_cases hp : t.client.isSome <;> cases closeOk <;> simp [hp, ht] at hstep
  · rw [mongoStep, mongoDisconnect]
    by_cases hp : t.client.isSome <;> simp [hp, mongoIsConnected]
  · rw [mongoStep, mongoDisconnect]
    by_cases hp : t.client.isSome <;> simp [hp]

/-- Witness for the amended claim C4 at fresh instances and successful
connect operations. -/
theorem claim4_witness :
    (∃ h, PGOp.connect true 7 = PGOp.connect true h) ∧
    pgIsConnected (pgStep (PGOp.disconnect true) PGState.init) = false ∧
    pgStep (PGOp.disconnect false) PGState.init = PGState.init ∧
    (∃ hc hd, MongoOp.connect true true 3 4 = MongoOp.connect true true hc hd) ∧
    mongoIsConnected (mongoStep (MongoOp.disconnect true) MongoState.init) = false ∧
    mongoStep (MongoOp.disconnect false) MongoState.init = MongoState.init :=
  ⟨(claim4_no_silent_reconnect PGState.init (PGOp.connect true 7) MongoState.init
      (MongoOp.connect true true 3 4)).1 rfl rfl,
   (claim4_no_silent_reconnect PGState.init (PGOp.connect true 7) MongoState.init
      (MongoOp.connect true true 3 4)).2.1,
   (claim4_no_silent_reconnect PGState.init (PGOp.connect true 7) MongoState.init
      (MongoOp.connect true true 3 4)).2.2.1,
   (claim4_no_silent_reconnect PGState.init (PGOp.connect true 7) MongoState.init
      (MongoOp.connect true true 3 4)).2.2.2.1 rfl rfl,
   (claim4_no_silent_reconnect PGState.init (PGOp.connect true 7) MongoState.init
      (MongoOp.connect true true 3 4)).2.2.2.2.1,
   (claim4_no_silent_reconnect PGState.init (PGOp.connect true 7) MongoState.init
      (MongoOp.connect true true 3 4)).2.2.2.2.2⟩

/-! ### Claim C5 -/

/-- Claim C5: for every two-provider configuration pairing a provider whose
adapter constructor throws a configuration error (as the PostgreSQL
constructor does when neither connectionString nor host is given) with a
valid provider, in either order, `initialize` completes — the factory
exception is caught inside the loop, and `initializeDb` is a total
function — and afterwards the valid provider is live: `get` returns its
adapter, `providers()` is exactly the valid id, and the invalid id yields
an unknown-adapter error listing the live ids. -/
theorem claim5_invalid_provider_isolated (i v : String) (d : Option String)
    (hne : i ≠ v) :
    mkPostgreSQLAdapter { connectionString := none, host := none }
      = .error (DbError.configuration
          "PostgreSQL requires connectionString or host in configuration") ∧
    ((initializeDb
        { dflt := d,
          providers := some
            [(i, { cfgPresent := true, known := true, ctorOk := false, connectOk := false }),
             (v, { cfgPresent := true, known := true, ctorOk := true, connectOk := true })] }
        ManagerState.fresh).1.get v = .ok { connected := true } ∧
     (initializeDb
        { dflt := d,
          providers := some
            [(i, { cfgPresent := true, known := true, ctorOk := false, connectOk := false }),
             (v, { cfgPresent := true, known := true, ctorOk := true, connectOk := true })] }
        ManagerState.fresh).1.providersList = [v] ∧
     (initializeDb
        { dflt := d,
          providers := some
            [(i, { cfgPresent := true, known := true, ctorOk := false, connectOk := false }),
             (v, { cfgPresent := true, known := true, ctorOk := true, connectOk := true })] }
        ManagerState.fresh).1.get i = .error (DbError.unknownAdapter i [v])) ∧
    ((initializeDb
        { dflt := d,
          providers := some
            [(v, { cfgPresent := true, known := true, ctorOk := true, connectOk := true }),
             (i, { cfgPresent := true, known := true, ctorOk := false, connectOk := false })] }
        ManagerState.fresh).1.get v = .ok { connected := true } ∧
     (initializeDb
        { dflt := d,
          providers := some
            [(v, { cfgPresent := true, known := true, ctorOk := true, connectOk := true }),
             (i, { cfgPresent := true, known := true, ctorOk := false, connectOk := false })] }
        ManagerState.fresh).1.providersList = [v]) := by
  have hvi : v ≠ i := Ne.symm hne
  refine ⟨rfl, ⟨?_, ?_, ?_⟩, ⟨?_, ?_⟩⟩ <;>
    simp [initializeDb, ManagerState.fresh, initStep, mapSet, mapLookup,
      ManagerState.get, ManagerState.providersList, hvi]

/-- Witness for claim C5 with a mysql-named invalid provider and a
postgresql-named valid provider. -/
theorem claim5_witness :
    mkPostgreSQLAdapter { connectionString := none, host := none }
      = .error (DbError.configuration
          "PostgreSQL requires connectionString or host in configuration") ∧
    ((initializeDb
        { dflt := none,
          providers := some
            [("mysql", { cfgPresent := true, known := true, ctorOk := false, connectOk := false }),
             ("postgresql", { cfgPresent := true, known := true, ctorOk := true, connectOk := true })] }
        ManagerState.fresh).1.get "postgresql" = .ok { connected := true } ∧
     (initializeDb
        { dflt := none,
          providers := some
            [("mysql", { cfgPresent := true, known := true, ctorOk := false, connectOk := false }),
             ("postgresql", { cfgPresent := true, known := true, ctorOk := true, connectOk := true })] }
        ManagerState.fresh).1.providersList = ["postgresql"] ∧
     (initializeDb
        { dflt := none,
          providers := some
            [("mysql", { cfgPresent := true, known := true, ctorOk := false, connectOk := false }),
             ("postgresql", { cfgPresent := true, known := true, ctorOk := true, connectOk := true })] }
        ManagerState.fresh).1.get "mysql"
        = .error (DbError.unknownAdapter "mysql" ["postgresql"])) ∧
    ((initializeDb
        { dflt := none,
          providers := some
            [("postgresql", { cfgPresent := true, known := true, ctorOk := true, connectOk := true }),
             ("mysql", { cfgPresent := true, known := true, ctorOk := false, connectOk := false })] }
        ManagerState.fresh).1.get "postgresql" = .ok { connected := true } ∧
     (initializeDb
        { dflt := none,
          providers := some
            [("postgresql", { cfgPresent := true, known := true, ctorOk := true, connectOk := true }),
             ("mysql", { cfgPresent := true, known := true, ctorOk := false, connectOk := false })] }
        ManagerState.fresh).1.providersList = ["postgresql"]) :=
  claim5_invalid_provider_isolated "mysql" "postgresql" none (by decide)

/-! ### Claim C6 -/

/-- Claim C6 as stated is false on the code: with no default configured and
one registered adapter whose connect failed, there are zero live adapters,
yet `default()` returns that dead adapter instead of failing with the
no-adapters error — `default()` reads the first entry of the map, which
also contains adapters whose connect was never successful. -/
theorem claim6_counterexample :
    (initializeDb
      { dflt := none,
        providers := some [("postgresql",
          { cfgPresent := true, known := true, ctorOk := true, connectOk := false })] }
      ManagerState.fresh).1.liveAdapters = [] ∧
    (initializeDb
      { dflt := none,
        providers := some [("postgresql",
          { cfgPresent := true, known := true, ctorOk := true, connectOk := false })] }
      ManagerState.fresh).1.defaultAdapter = .ok { connected := false } ∧
    (initializeDb
      { dflt := none,
        providers := some [("postgresql",
          { cfgPresent := true, known := true, ctorOk := true, connectOk := false })] }
      ManagerState.fresh).1.defaultAdapter ≠ .error DbError.noAdapters :=
  ⟨rfl, rfl, by simp [initializeDb, ManagerState.fresh, initStep, mapSet,
    ManagerState.defaultAdapter]⟩

/-- Claim C6 amended: when no default provider is configured, `default()`
returns the first-registered adapter of the manager map — stable across
calls and independent of whether that adapter ever connected — and fails
with the no-adapters error exactly when the map is empty. -/
theorem claim6_default_returns_first_registered (s : ManagerState)
    (h : s.defaultProvider = none) :
    (s.adapters = [] → s.defaultAdapter = .error DbError.noAdapters) ∧
    (∀ kv rest, s.adapters = kv :: rest → s.defaultAdapter = .ok kv.2) := by
  constructor
  · intro he
    simp [ManagerState.defaultAdapter, h, he]
  · intro kv rest he
    simp [ManagerState.defaultAdapter, h, he]

/-- Witness for the amended claim C6 on an empty manager and on a manager
with one registered adapter. -/
theorem claim6_witness :
    ManagerState.fresh.defaultAdapter = .error DbError.noAdapters ∧
    ({ adapters := [("a", { connected := true })], defaultProvider := none,
       initialized := true } : ManagerState).defaultAdapter
      = .ok { connected := true } :=
  ⟨(claim6_default_returns_first_registered ManagerState.fresh rfl).1 rfl,
   (claim6_default_returns_first_registered
      { adapters := [("a", { connected := true })], defaultProvider := none,
        initialized := true } rfl).2 ("a", { connected := true }) [] rfl⟩

/-! ### Claim C7 -/

/-- Claim C7: `disconnect()` always completes (every per-adapter rejection
is caught and only logged); after one call `providers()` is empty and the
initialized flag is false, and an immediately following second call is a
no-op that changes nothing and logs no error, whatever the per-adapter
disconnect outcomes are. -/
theorem claim7_disconnect_idempotent (s : ManagerState) (df df2 : String → Bool) :
    (s.disconnectAll df).1.providersList = [] ∧
    (s.disconnectAll df).1.initialized = false ∧
    (s.disconnectAll df).1.disconnectAll df2 = ((s.disconnectAll df).1, []) :=
  ⟨rfl, rfl, rfl⟩

/-! ### Claim C8 -/

/-- Claim C8: on a manager whose initialized flag is true, a further
`initialize` call with any configuration only logs the
already-initialized warning and leaves the whole state — adapter map,
default provider and flag — unchanged, creating no adapter. -/
theorem claim8_second_init_noop (cfg : DbConfig) (s : ManagerState)
    (h : s.initialized = true) :
    initializeDb cfg s = (s, ["DatabaseManager already initialized"]) := by
  simp [initializeDb, h]

/-- Witness for claim C8 on an initialized one-adapter manager. -/
theorem claim8_witness :
    initializeDb { dflt := none, providers := some [] }
      { adapters := [("a", { connected := true })], defaultProvider := some "a",
        initialized := true }
      = ({ adapters := [("a", { connected := true })], defaultProvider := some "a",
           initialized := true }, ["DatabaseManager already initialized"]) :=
  claim8_second_init_noop { dflt := none, providers := some [] }
    { adapters := [("a", { connected := true })], defaultProvider := some "a",
      initialized := true } rfl

/-! ### Claim C9 -/

/-- Claim C9: on the Firestore collection implementation, when the filter
matches no document each of the four write operations returns a zero
modified or deleted count, leaves the collection unchanged, and cannot
throw — the zero-count return happens before any driver write, so it holds
whatever the write outcomes would have been. -/
theorem claim9_empty_match_writes_return_zero
    (store : List FsDoc) (filter : FsFilter) (upd : List (String × String))
    (f1 f2 f3 f4 : Bool) (h : fsFind store filter = []) :
    fsUpdateOne f1 store filter upd = .ok (0, store) ∧
    fsUpdateMany f2 store filter upd = .ok (0, store) ∧
    fsDeleteOne f3 store filter = .ok (0, store) ∧
    fsDeleteMany f4 store filter = .ok (0, store) := by
  refine ⟨?_, ?_, ?_, ?_⟩ <;>
    simp [fsUpdateOne, fsUpdateMany, fsDeleteOne, fsDeleteMany, h]

/-- Witness for claim C9 on a one-document collection and a filter
matching nothing, with every driver write set to fail. -/
theorem claim9_witness :
    fsFind [(1, [("a", "x")])] [("a", "y")] = [] ∧
    (fsUpdateOne true [(1, [("a", "x")])] [("a", "y")] [("a", "z")]
        = .ok (0, [(1, [("a", "x")])]) ∧
     fsUpdateMany true [(1, [("a", "x")])] [("a", "y")] [("a", "z")]
        = .ok (0, [(1, [("a", "x")])]) ∧
     fsDeleteOne true [(1, [("a", "x")])] [("a", "y")]
        = .ok (0, [(1, [("a", "x")])]) ∧
     fsDeleteMany true [(1, [("a", "x")])] [("a", "y")]
        = .ok (0, [(1, [("a", "x")])])) :=
  ⟨rfl, claim9_empty_match_writes_return_zero [(1, [("a", "x")])] [("a", "y")]
    [("a", "z")] true true true true rfl⟩

/-! ### Claim C10 -/

/-- Claim C10: on an already connected PostgreSQL, MongoDB or Firebase
adapter instance, a further `connect()` call returns successfully at the
initial guard without touching any field, whatever the driver outcomes and
fresh handles would have been — no new pool, client or app is created. -/
theorem claim10_connect_idempotent_when_connected
    (s : PGState) (ok : Bool) (h : Nat)
    (t : MongoState) (cOk pOk : Bool) (hc hd : Nat)
    (u : FBState) (ex iOk : Bool) (ha hf hr : Nat) (url : Bool)
    (hs : s.connected = true) (ht : t.connected = true) (hu : u.connected = true) :
    pgConnect ok h s = (s, .ok ()) ∧
    mongoConnect cOk pOk hc hd t = (t, .ok ()) ∧
    fbConnect ex iOk ha hf hr url u = (u, .ok ()) := by
  refine ⟨?_, ?_, ?_⟩ <;> simp [pgConnect, mongoConnect, fbConnect, hs, ht, hu]

/-- Witness for claim C10 at concrete connected instances of the three
adapters. -/
theorem claim10_witness :
    pgConnect false 9 { connected := true, pool := some 1 }
      = ({ connected := true, pool := some 1 }, .ok ()) ∧
    mongoConnect false false 9 9 { connected := true, client := some 1, db := some 2 }
      = ({ connected := true, client := some 1, db := some 2 }, .ok ()) ∧
    fbConnect false false 9 9 9 true
      { connected := true, app := some 1, firestore := some 2, realtimeDb := none }
      = ({ connected := true, app := some 1, firestore := some 2, realtimeDb := none },
         .ok ()) :=
  claim10_connect_idempotent_when_connected
    { connected := true, pool := some 1 } false 9
    { connected := true, client := some 1, db := some 2 } false false 9 9
    { connected := true, app := some 1, firestore := some 2, realtimeDb := none }
    false false 9 9 9 true rfl rfl rfl

end BackendDB
